import Mathlib

/-!
Verification of the nova_pg library against its specification.

The Python source is shallowly embedded: each library function becomes a
pure Lean function over an explicit environment describing the behaviour
of the external database collaborators (whether each cursor or connection
operation succeeds or raises, what rows the server delivers).  Functions
return an `Except` outcome together with an explicit trace of the calls
they made, so that claims about call counts and ordering can be stated.
-/

namespace NovaPg

/-- Abstract identifier standing for a Python exception object; a bare
re-raise propagates the same identifier. -/
abbrev ErrId := Nat

/-- Errors raised by the library, mirroring the exception values the
Python code constructs. -/
inductive PgError where
  | validation (msg : String)
  | transfer (schema table : String) (cause : ErrId)
  | fetch (cause : ErrId)
  | runtime (cause : ErrId)
  deriving DecidableEq, Repr

/-! ## Session scope: `utils.get_cursor`

The context manager runs the caller's work, commits on normal return,
rolls back and re-raises on exception, and in a `finally` block closes
first the cursor and then the connection.  Python `finally` semantics:
an exception raised inside the `finally` block replaces any in-flight
exception and aborts the rest of the block. -/

/-- Events recorded against the connection and cursor during one
`get_cursor` invocation. -/
inductive SessionEv where
  | commit
  | rollback
  | closeCur
  | closeConn
  deriving DecidableEq, Repr

/-- Behaviour of the external collaborators during one `get_cursor`
invocation: the outcome of the caller-supplied work, and whether each of
commit, rollback, cursor close and connection close raises. -/
structure SessionEnv (α : Type) where
  work : Except ErrId α
  commitErr : Option ErrId
  rollbackErr : Option ErrId
  curCloseErr : Option ErrId
  connCloseErr : Option ErrId

/-- The `try`/`except Exception` part of `get_cursor`: run the work; on
normal return commit; on exception (or on a commit failure, itself caught
by the same handler) roll back and re-raise the pending exception; a
rollback failure becomes the pending exception. -/
def sessionTryOutcome (env : SessionEnv α) : Except ErrId α × List SessionEv :=
  match env.work with
  | .ok v =>
    match env.commitErr with
    | none => (.ok v, [.commit])
    | some ec =>
      match env.rollbackErr with
      | none => (.error ec, [.commit, .rollback])
      | some er => (.error er, [.commit, .rollback])
  | .error e =>
    match env.rollbackErr with
    | none => (.error e, [.rollback])
    | some er => (.error er, [.rollback])

/-- `utils.get_cursor`: the try/except outcome followed by the `finally`
block `cur.close(); conn.close()`.  A failure in `cur.close()` replaces
the pending outcome and skips `conn.close()`; a failure in `conn.close()`
replaces the pending outcome. -/
def get_cursor (env : SessionEnv α) : Except ErrId α × List SessionEv :=
  match env.curCloseErr with
  | some ec => (.error ec, (sessionTryOutcome env).2 ++ [.closeCur])
  | none =>
    match env.connCloseErr with
    | some eo => (.error eo, (sessionTryOutcome env).2 ++ [.closeCur, .closeConn])
    | none => ((sessionTryOutcome env).1, (sessionTryOutcome env).2 ++ [.closeCur, .closeConn])

/-- Claim C1: when the session collaborators (commit, rollback, closes)
themselves succeed, a work invocation that returns normally performs
exactly one commit and then releases cursor and connection, returning the
work's result; a work invocation that raises performs exactly one
rollback, releases cursor and connection, and propagates the original
exception unchanged; exactly one of commit and rollback occurs. -/
theorem get_cursor_commit_or_rollback (α : Type) (env : SessionEnv α)
    (hc : env.commitErr = none) (hr : env.rollbackErr = none)
    (hcc : env.curCloseErr = none) (hco : env.connCloseErr = none) :
    (∀ v : α, env.work = .ok v →
      get_cursor env = (.ok v, [.commit, .closeCur, .closeConn])) ∧
    (∀ e : ErrId, env.work = .error e →
      get_cursor env = (.error e, [.rollback, .closeCur, .closeConn])) ∧
    (get_cursor env).2.count .commit + (get_cursor env).2.count .rollback = 1 := by
  obtain ⟨w, ce, re, cce, coe⟩ := env
  simp only at hc hr hcc hco
  subst hc hr hcc hco
  cases w with
  | ok v =>
    refine ⟨?_, ?_, ?_⟩
    · intro v' hv'
      cases hv'
      rfl
    · intro e he
      cases he
    · show List.count SessionEv.commit [SessionEv.commit, .closeCur, .closeConn]
        + List.count SessionEv.rollback [SessionEv.commit, .closeCur, .closeConn] = 1
      decide
  | error e =>
    refine ⟨?_, ?_, ?_⟩
    · intro v' hv'
      cases hv'
    · intro e' he'
      cases he'
      rfl
    · show List.count SessionEv.commit [SessionEv.rollback, .closeCur, .closeConn]
        + List.count SessionEv.rollback [SessionEv.rollback, .closeCur, .closeConn] = 1
      decide

/-- Witness for C1: both branches of the theorem applied at concrete
environments, with all hypotheses discharged. -/
theorem get_cursor_commit_or_rollback_witness :
    get_cursor (⟨.ok 42, none, none, none, none⟩ : SessionEnv Nat)
      = (.ok 42, [.commit, .closeCur, .closeConn]) ∧
    get_cursor (⟨.error 7, none, none, none, none⟩ : SessionEnv Nat)
      = (.error 7, [.rollback, .closeCur, .closeConn]) :=
  ⟨(get_cursor_commit_or_rollback Nat ⟨.ok 42, none, none, none, none⟩
      rfl rfl rfl rfl).1 42 rfl,
   (get_cursor_commit_or_rollback Nat ⟨.error 7, none, none, none, none⟩
      rfl rfl rfl rfl).2.1 7 rfl⟩

/-- Counterexample to claim C6 as stated: with work raising exception 7
and cursor close raising exception 99, the propagated failure is 99 (the
release failure masks the original), and the connection is never closed,
so release does not occur on every exit path. -/
theorem get_cursor_close_masks_counterexample :
    get_cursor (⟨.error 7, none, none, some 99, none⟩ : SessionEnv Nat)
      = (.error 99, [.rollback, .closeCur]) ∧
    (99 : ErrId) ≠ 7 ∧
    SessionEv.closeConn ∉
      (get_cursor (⟨.error 7, none, none, some 99, none⟩ : SessionEnv Nat)).2 := by
  refine ⟨rfl, by decide, by decide⟩

/-- Claim C6 amended: cursor close is invoked on every exit path, and when
it succeeds the connection close is also invoked, including when commit or
rollback raises; but a failure in cursor close masks any earlier failure
(the close error is what propagates) and skips the connection close, and a
failure in connection close likewise masks any earlier failure. -/
theorem get_cursor_release_amended (α : Type) (env : SessionEnv α) :
    (get_cursor env).2.count .closeCur = 1 ∧
    (env.curCloseErr = none → (get_cursor env).2.count .closeConn = 1) ∧
    (∀ ec : ErrId, env.curCloseErr = some ec →
      (get_cursor env).1 = .error ec ∧ SessionEv.closeConn ∉ (get_cursor env).2) ∧
    (∀ eo : ErrId, env.curCloseErr = none → env.connCloseErr = some eo →
      (get_cursor env).1 = .error eo) := by
  obtain ⟨w, ce, re, cce, coe⟩ := env
  refine ⟨?_, ?_, ?_, ?_⟩
  · cases cce <;> cases coe <;> cases w <;> cases ce <;> cases re <;>
      simp [get_cursor, sessionTryOutcome, List.count_append]
  · intro h
    simp only at h
    subst h
    cases coe <;> cases w <;> cases ce <;> cases re <;>
      simp [get_cursor, sessionTryOutcome, List.count_append]
  · intro ec hec
    simp only at hec
    subst hec
    cases w <;> cases ce <;> cases re <;>
      simp [get_cursor, sessionTryOutcome]
  · intro eo h heo
    simp only at h heo
    subst h
    subst heo
    cases w <;> cases ce <;> cases re <;>
      simp [get_cursor, sessionTryOutcome]

/-- Witness for the amended C6: at a concrete environment where work
succeeds but cursor close raises 5, the propagated failure is 5 and the
connection close never happens. -/
theorem get_cursor_release_amended_witness :
    (get_cursor (⟨.ok 1, none, none, some 5, none⟩ : SessionEnv Nat)).1 = .error 5 ∧
    SessionEv.closeConn ∉
      (get_cursor (⟨.ok 1, none, none, some 5, none⟩ : SessionEnv Nat)).2 :=
  (get_cursor_release_amended Nat ⟨.ok 1, none, none, some 5, none⟩).2.2.1 5 rfl

/-! ## Bulk loader: `toolbox.insert_dataframe`

The DataFrame is modelled by its ordered list of rows.  The while loop
`start = 0; end = min(start + chunksize, len(df)); while start < len(df):
chunk = df.iloc[start:end]; copy; start = end; end += chunksize` becomes a
fuel-bounded loop; fuel `len(df) + 1` is enough for every chunksize ≥ 1,
so on that domain the model coincides with the source.  The result pairs
the outcome with the list of chunk payloads handed to `cur.copy_expert`,
in call order, so the trace length is the number of transport calls. -/

/-- Python slice `df.iloc[s:e]` on a row list (indices clamp). -/
def pySlice (df : List α) (s e : Nat) : List α :=
  (df.drop s).take (e - s)

/-- Target identity and the transport behaviour: `copyErr k` is the
outcome of the k-th `copy_expert` call (`none` = success). -/
structure InsertEnv where
  schema : String
  table : String
  copyErr : Nat → Option ErrId

/-- The chunking while loop of `toolbox.insert_dataframe`: at indices
`[s, e)` copy one chunk; a transport failure raises `RuntimeError` naming
`schema.table` with the cause chained, aborting the loop; otherwise
continue at `start = end; end += chunksize`. -/
def insertLoop (env : InsertEnv) (df : List α) (c : Nat) :
    Nat → Nat → Nat → Nat → Except PgError Unit × List (List α)
  | 0, _, _, _ => (.ok (), [])
  | fuel + 1, s, e, calls =>
    if s < df.length then
      match env.copyErr calls with
      | some cause =>
          (.error (.transfer env.schema env.table cause), [pySlice df s e])
      | none =>
          ((insertLoop env df c fuel e (e + c) (calls + 1)).1,
           pySlice df s e :: (insertLoop env df c fuel e (e + c) (calls + 1)).2)
    else (.ok (), [])

/-- `toolbox.insert_dataframe`: an empty DataFrame raises `ValueError`
before anything else; otherwise run the chunk loop from
`start = 0, end = min(chunksize, len(df))`. -/
def insert_dataframe (env : InsertEnv) (df : List α) (c : Nat) :
    Except PgError Unit × List (List α) :=
  if df.length = 0 then
    (.error (.validation "The provided DataFrame is empty and cannot be inserted."), [])
  else insertLoop env df c (df.length + 1) 0 (min c df.length) 0

/-- Ceiling division, the batch count the spec predicts. -/
def ceilDiv (m c : Nat) : Nat := (m + c - 1) / c

lemma ceilDiv_zero_left (c : Nat) (hc : 1 ≤ c) : ceilDiv 0 c = 0 := by
  unfold ceilDiv
  exact Nat.div_eq_of_lt (by omega)

lemma ceilDiv_eq_one (m c : Nat) (hc : 1 ≤ c) (hm : 1 ≤ m) (h : m ≤ c) :
    ceilDiv m c = 1 := by
  unfold ceilDiv
  exact Nat.div_eq_of_lt_le (by omega) (by omega)

lemma ceilDiv_rec (m c : Nat) (hc : 1 ≤ c) (hm : 1 ≤ m) :
    ceilDiv m c = ceilDiv (m - c) c + 1 := by
  rcases le_or_lt m c with h | h
  · rw [ceilDiv_eq_one m c hc hm h]
    have hz : m - c = 0 := by omega
    rw [hz, ceilDiv_zero_left c hc]
  · unfold ceilDiv
    have he : m + c - 1 = (m - c + c - 1) + c := by omega
    rw [he, Nat.add_div_right _ (by omega)]

lemma one_le_of_ceilDiv_pos (m c : Nat) (hc : 1 ≤ c) (h : 0 < ceilDiv m c) :
    1 ≤ m := by
  by_contra hm
  have hz : m = 0 := by omega
  rw [hz, ceilDiv_zero_left c hc] at h
  omega

lemma insertLoop_stop (env : InsertEnv) (df : List α) (c fuel s e calls : Nat)
    (hs : df.length ≤ s) :
    insertLoop env df c fuel s e calls = (.ok (), []) := by
  cases fuel with
  | zero => rfl
  | succ f =>
    simp only [insertLoop, if_neg (by omega : ¬ s < df.length)]

/-- Core invariant of the chunk loop with no transport failures: it
succeeds, streams exactly the rows from index `s` on in order, makes
`ceil((len - s) / c)` transport calls, and every chunk is nonempty with at
most `c` rows. -/
lemma insertLoop_noFail (env : InsertEnv) (df : List α) (c : Nat)
    (hc : 1 ≤ c) (hnf : ∀ k, env.copyErr k = none) :
    ∀ fuel s calls, df.length - s < fuel →
      (insertLoop env df c fuel s (s + c) calls).1 = .ok () ∧
      (insertLoop env df c fuel s (s + c) calls).2.flatten = df.drop s ∧
      (insertLoop env df c fuel s (s + c) calls).2.length = ceilDiv (df.length - s) c ∧
      ∀ ch ∈ (insertLoop env df c fuel s (s + c) calls).2,
        1 ≤ ch.length ∧ ch.length ≤ c := by
  intro fuel
  induction fuel with
  | zero => intro s calls h; omega
  | succ f ih =>
    intro s calls h
    by_cases hs : s < df.length
    · have ih' := ih (s + c) (calls + 1) (by omega)
      have hchunk : pySlice df s (s + c) = (df.drop s).take c := by
        unfold pySlice
        rw [Nat.add_sub_cancel_left]
      have hlenchunk : (pySlice df s (s + c)).length = min c (df.length - s) := by
        rw [hchunk, List.length_take, List.length_drop]
      simp only [insertLoop, if_pos hs, hnf calls]
      refine ⟨ih'.1, ?_, ?_, ?_⟩
      · rw [List.flatten_cons, ih'.2.1, hchunk]
        rw [show df.drop (s + c) = (df.drop s).drop c by
          rw [List.drop_drop, Nat.add_comm]]
        exact List.take_append_drop c (df.drop s)
      · rw [List.length_cons, ih'.2.2.1,
          ceilDiv_rec (df.length - s) c hc (by omega), Nat.sub_sub]
      · intro ch hch
        rcases List.mem_cons.mp hch with hh | ht
        · subst hh
          rw [hlenchunk]
          omega
        · exact ih'.2.2.2 ch ht
    · rw [insertLoop_stop env df c (f + 1) s (s + c) calls (by omega)]
      refine ⟨rfl, ?_, ?_, by intro ch hch; cases hch⟩
      · rw [List.drop_eq_nil_of_le (by omega)]
        rfl
      · rw [show df.length - s = 0 by omega, ceilDiv_zero_left c hc]
        rfl

/-- On a nonempty DataFrame with chunksize ≥ 1, the initial end index
`min(chunksize, len)` behaves exactly like `0 + chunksize`: either they
coincide, or the whole DataFrame fits in the first chunk and both runs
stream the single chunk `df`. -/
lemma insert_dataframe_eq_loop (env : InsertEnv) (df : List α) (c : Nat)
    (hdf : df ≠ []) (hc : 1 ≤ c) :
    insert_dataframe env df c = insertLoop env df c (df.length + 1) 0 (0 + c) 0 := by
  have hlen : 0 < df.length := List.length_pos.mpr hdf
  rw [insert_dataframe, if_neg (by omega)]
  rcases le_or_lt c df.length with h | h
  · rw [Nat.min_eq_left h, Nat.zero_add]
  · rw [Nat.min_eq_right (le_of_lt h)]
    have hchunkL : pySlice df 0 df.length = df := by
      unfold pySlice
      rw [List.drop_zero, Nat.sub_zero, List.take_length]
    have hchunkR : pySlice df 0 (0 + c) = df := by
      unfold pySlice
      rw [List.drop_zero, Nat.sub_zero, List.take_of_length_le (by omega)]
    simp only [insertLoop, if_pos hlen]
    cases hcall : env.copyErr 0 with
    | some cause => rw [hchunkL, hchunkR]
    | none =>
      rw [insertLoop_stop env df c df.length df.length (df.length + c) 1 (by omega),
          insertLoop_stop env df c df.length (0 + c) (0 + c + c) 1 (by omega),
          hchunkL, hchunkR]

/-- Claim C2: for a nonempty DataFrame and chunksize ≥ 1 with a transport
that never fails, insert_dataframe succeeds, the chunks streamed
concatenate in order to exactly the original rows (no omission,
duplication, gap or overlap), each chunk has at most chunksize rows, the
number of chunks is ceil(N / chunksize), and a DataFrame with
N ≤ chunksize is streamed as the single chunk `df`. -/
theorem insert_dataframe_partitions (env : InsertEnv) (df : List α) (c : Nat)
    (hdf : df ≠ []) (hc : 1 ≤ c) (hnf : ∀ k, env.copyErr k = none) :
    (insert_dataframe env df c).1 = .ok () ∧
    (insert_dataframe env df c).2.flatten = df ∧
    (insert_dataframe env df c).2.length = ceilDiv df.length c ∧
    (∀ ch ∈ (insert_dataframe env df c).2, ch.length ≤ c) ∧
    (df.length ≤ c → (insert_dataframe env df c).2 = [df]) := by
  rw [insert_dataframe_eq_loop env df c hdf hc]
  have main := insertLoop_noFail env df c hc hnf (df.length + 1) 0 0 (by omega)
  simp only [List.drop_zero, Nat.sub_zero] at main
  refine ⟨main.1, main.2.1, main.2.2.1,
    fun ch hch => (main.2.2.2 ch hch).2, ?_⟩
  intro hle
  have h1 : (insertLoop env df c (df.length + 1) 0 (0 + c) 0).2.length = 1 := by
    rw [main.2.2.1]
    exact ceilDiv_eq_one df.length c hc (List.length_pos.mpr hdf) hle
  obtain ⟨ch, hch⟩ := List.length_eq_one.mp h1
  have hj := main.2.1
  rw [hch] at hj ⊢
  simp only [List.flatten_cons, List.flatten_nil, List.append_nil] at hj
  rw [hj]

/-- Witness for C2: a five-row DataFrame with chunksize 2 partitions into
chunks that concatenate back to the rows, in ceil(5/2) = 3 chunks. -/
theorem insert_dataframe_partitions_witness :
    (insert_dataframe (⟨"s", "t", fun _ => none⟩ : InsertEnv)
        [1, 2, 3, 4, 5] 2).2.flatten = [1, 2, 3, 4, 5] ∧
    (insert_dataframe (⟨"s", "t", fun _ => none⟩ : InsertEnv)
        [1, 2, 3, 4, 5] 2).2.length = ceilDiv 5 2 :=
  ⟨(insert_dataframe_partitions ⟨"s", "t", fun _ => none⟩ [1, 2, 3, 4, 5] 2
      (by decide) (by decide) (fun _ => rfl)).2.1,
   (insert_dataframe_partitions ⟨"s", "t", fun _ => none⟩ [1, 2, 3, 4, 5] 2
      (by decide) (by decide) (fun _ => rfl)).2.2.1⟩

/-- The chunk loop when the transport first fails at its k-th call, with
k batches still pending: the transfer error naming schema, table and
cause is raised at once and exactly k + 1 transport calls were made. -/
lemma insertLoop_fail (env : InsertEnv) (df : List α) (c : Nat)
    (hc : 1 ≤ c) (cause : ErrId) :
    ∀ k fuel s calls, df.length - s < fuel →
      (∀ j, j < k → env.copyErr (calls + j) = none) →
      env.copyErr (calls + k) = some cause →
      k < ceilDiv (df.length - s) c →
      (insertLoop env df c fuel s (s + c) calls).1
          = .error (.transfer env.schema env.table cause) ∧
      (insertLoop env df c fuel s (s + c) calls).2.length = k + 1 := by
  intro k
  induction k with
  | zero =>
    intro fuel s calls hfuel _ hfail hk
    have hm : 1 ≤ df.length - s := one_le_of_ceilDiv_pos _ c hc hk
    have hs : s < df.length := by omega
    cases fuel with
    | zero => omega
    | succ f =>
      rw [Nat.add_zero] at hfail
      simp only [insertLoop, if_pos hs, hfail]
      exact ⟨trivial, rfl⟩
  | succ kk ih =>
    intro fuel s calls hfuel hbefore hfail hk
    have hm : 1 ≤ df.length - s := one_le_of_ceilDiv_pos _ c hc (by omega)
    have hs : s < df.length := by omega
    have hrec : ceilDiv (df.length - s) c = ceilDiv (df.length - s - c) c + 1 :=
      ceilDiv_rec (df.length - s) c hc hm
    cases fuel with
    | zero => omega
    | succ f =>
      have h0 : env.copyErr calls = none := by
        have hb := hbefore 0 (by omega)
        rwa [Nat.add_zero] at hb
      simp only [insertLoop, if_pos hs, h0]
      have ih' := ih f (s + c) (calls + 1) (by omega)
          (fun j hj => by
            have hb := hbefore (j + 1) (by omega)
            have he : calls + (j + 1) = calls + 1 + j := by omega
            rwa [he] at hb)
          (by
            have he : calls + 1 + kk = calls + (kk + 1) := by omega
            rw [he]
            exact hfail)
          (by
            rw [hrec] at hk
            rw [show df.length - (s + c) = df.length - s - c from
              (Nat.sub_sub df.length s c).symm]
            omega)
      exact ⟨ih'.1, by rw [List.length_cons, ih'.2]⟩

/-- Claim C3: if the transport fails for the first time on its k-th call
(0-based) with k within the batch count, insert_dataframe raises a
transfer error carrying the target schema, table and underlying cause,
and exactly k + 1 transport calls were made: no later batch is attempted
and no call is retried. -/
theorem insert_dataframe_stops_on_failure (env : InsertEnv) (df : List α)
    (c k : Nat) (cause : ErrId) (hc : 1 ≤ c)
    (hbefore : ∀ j, j < k → env.copyErr j = none)
    (hfail : env.copyErr k = some cause)
    (hk : k < ceilDiv df.length c) :
    (insert_dataframe env df c).1 = .error (.transfer env.schema env.table cause) ∧
    (insert_dataframe env df c).2.length = k + 1 := by
  have hm : 1 ≤ df.length := one_le_of_ceilDiv_pos _ c hc (by omega)
  have hdf : df ≠ [] := List.length_pos.mp (by omega)
  rw [insert_dataframe_eq_loop env df c hdf hc]
  exact insertLoop_fail env df c hc cause k (df.length + 1) 0 0 (by omega)
    (fun j hj => by
      rw [Nat.zero_add]
      exact hbefore j hj)
    (by
      rw [Nat.zero_add]
      exact hfail)
    (by
      rw [Nat.sub_zero]
      exact hk)

/-- Witness for C3: the concrete three-batch scenario — five rows with
chunksize 2 give batches of sizes 2, 2, 1; the transport fails on its
second call (index 1), the transfer error is raised, and exactly 2
transport calls happened, not 3. -/
theorem insert_dataframe_stops_on_failure_witness :
    (insert_dataframe
        (⟨"s", "t", fun j => if j = 1 then some 13 else none⟩ : InsertEnv)
        [1, 2, 3, 4, 5] 2).1 = .error (.transfer "s" "t" 13) ∧
    (insert_dataframe
        (⟨"s", "t", fun j => if j = 1 then some 13 else none⟩ : InsertEnv)
        [1, 2, 3, 4, 5] 2).2.length = 2 :=
  insert_dataframe_stops_on_failure
    ⟨"s", "t", fun j => if j = 1 then some 13 else none⟩ [1, 2, 3, 4, 5] 2 1 13
    (by decide)
    (fun j hj => by
      have hj0 : j = 0 := Nat.lt_one_iff.mp hj
      subst hj0
      rfl)
    rfl
    (by decide)

/-- Claim C8: an empty DataFrame makes insert_dataframe raise the
validation error with zero transport calls: no cursor operation precedes
the error. -/
theorem insert_dataframe_empty_validation (α : Type) (env : InsertEnv) (c : Nat) :
    insert_dataframe env ([] : List α) c =
      (.error (.validation "The provided DataFrame is empty and cannot be inserted."), []) :=
  rfl

/-! ## Table creation: `toolbox.create_table`

`create_table` first checks every column dtype against the supported map
(raising `ValueError` on the first unsupported one, before anything
touches the cursor), builds the CREATE TABLE statement, then calls
`schema_exists` and `table_exists` — each of which executes a catalog
query through `fetch_one`, i.e. a network call — and only then issues the
CREATE TABLE statement through `execute_query`. -/

/-- The `pg_map` dtype table of `create_table`. -/
def pg_map : String → Option String
  | "int" => some "BIGINT"
  | "float" => some "DOUBLE PRECISION"
  | "decimal" => some "NUMERIC"
  | "bool" => some "BOOLEAN"
  | "str" => some "TEXT"
  | "bytes" => some "BYTEA"
  | "datetime" => some "TIMESTAMPTZ"
  | "date" => some "DATE"
  | "time" => some "TIME"
  | "timedelta" => some "INTERVAL"
  | _ => none

/-- Statements `create_table` can execute on the cursor; each is one
network round-trip. -/
inductive NetCall where
  | schemaProbe
  | tableProbe
  | createStmt
  deriving DecidableEq, Repr

/-- External state seen by `create_table`: what the existence probes
report and whether the CREATE TABLE execution fails. -/
structure CreateEnv where
  schemaFound : Bool
  tableFound : Bool
  execErr : Option ErrId

/-- The first column whose dtype is not in `pg_map`, in insertion order —
the column the `for` loop of `create_table` raises on. -/
def firstUnsupported (columns : List (String × String)) : Option (String × String) :=
  columns.find? (fun p => (pg_map p.2).isNone)

/-- `toolbox.create_table`: dtype validation, then the schema existence
probe (network), then the table existence probe (network), then the
CREATE TABLE execution (network); the result is paired with the ordered
list of network calls made. -/
def create_table (env : CreateEnv) (schemaName tableName : String)
    (columns : List (String × String)) : Except PgError Unit × List NetCall :=
  match firstUnsupported columns with
  | some p =>
      (.error (.validation ("Unsupported dtype " ++ p.2 ++ " for column " ++ p.1)), [])
  | none =>
    if !env.schemaFound then
      (.error (.validation ("Schema " ++ schemaName ++ " does not exist.")), [.schemaProbe])
    else if env.tableFound then
      (.error (.validation ("Table " ++ schemaName ++ "." ++ tableName ++ " already exists.")),
       [.schemaProbe, .tableProbe])
    else
      match env.execErr with
      | some e => (.error (.runtime e), [.schemaProbe, .tableProbe, .createStmt])
      | none => (.ok (), [.schemaProbe, .tableProbe, .createStmt])

/-- Counterexample to claim C9 as stated: with all dtypes supported but
the schema absent, create_table does raise the schema-absent validation
error, yet a catalog query (a network call) was executed before the error
was raised — the trace is nonempty, so this validation error is not
raised before touching the network. -/
theorem create_table_c9_counterexample :
    (create_table ⟨false, false, none⟩ "s" "t" [("a", "int")]).1
        = .error (.validation "Schema s does not exist.") ∧
    (create_table ⟨false, false, none⟩ "s" "t" [("a", "int")]).2 ≠ [] :=
  ⟨rfl, by decide⟩

/-- Claim C9 amended: the unsupported-dtype validation error is raised
before any network call (empty trace); the schema-absent error is raised
only after one catalog existence query, and the table-already-exists
error only after two; the CREATE TABLE statement itself is issued only
when no validation error fires, so every validation error precedes the
CREATE TABLE network call even though the existence checks themselves
are network calls. -/
theorem create_table_validation_order (env : CreateEnv) (sn tn : String)
    (columns : List (String × String)) :
    (∀ p, firstUnsupported columns = some p →
      (create_table env sn tn columns).2 = []) ∧
    (firstUnsupported columns = none → env.schemaFound = false →
      (create_table env sn tn columns).2 = [.schemaProbe] ∧
      (create_table env sn tn columns).1
        = .error (.validation ("Schema " ++ sn ++ " does not exist."))) ∧
    (firstUnsupported columns = none → env.schemaFound = true → env.tableFound = true →
      (create_table env sn tn columns).2 = [.schemaProbe, .tableProbe] ∧
      (create_table env sn tn columns).1
        = .error (.validation ("Table " ++ sn ++ "." ++ tn ++ " already exists."))) ∧
    (NetCall.createStmt ∈ (create_table env sn tn columns).2 →
      firstUnsupported columns = none ∧ env.schemaFound = true ∧ env.tableFound = false) := by
  obtain ⟨sf, tf, ee⟩ := env
  refine ⟨?_, ?_, ?_, ?_⟩
  · intro p hp
    simp [create_table, hp]
  · intro hcols hsf
    simp only at hsf
    subst hsf
    simp [create_table, hcols]
  · intro hcols hsf htf
    simp only at hsf htf
    subst hsf
    subst htf
    simp [create_table, hcols]
  · intro hmem
    cases hcols : firstUnsupported columns with
    | some p =>
      simp [create_table, hcols] at hmem
    | none =>
      cases sf <;> cases tf <;> simp [create_table, hcols] at hmem ⊢

/-- Witness for the amended C9: concrete environments exercising the
unsupported-dtype branch (no network call) and the schema-absent branch
(exactly the one probe call). -/
theorem create_table_validation_order_witness :
    (create_table (⟨true, false, none⟩ : CreateEnv) "s" "t" [("a", "complex")]).2 = [] ∧
    (create_table (⟨false, false, none⟩ : CreateEnv) "s" "t" [("a", "str")]).2
      = [NetCall.schemaProbe] :=
  ⟨(create_table_validation_order ⟨true, false, none⟩ "s" "t" [("a", "complex")]).1
      ("a", "complex") rfl,
   ((create_table_validation_order ⟨false, false, none⟩ "s" "t" [("a", "str")]).2.1
      rfl rfl).1⟩

/-! ## Row estimation: `utils.estimate_table_rows`

The function executes the `pg_class` lookup, fetches one row, and returns
`int(row[0])` when a row came back, `100_000` when none did; any failure
inside the `try` is re-raised as a fetch error. -/

/-- External behaviour of the catalog lookup: whether execution (or the
fetch) raises, and the `(reltuples, relpages)` row it returns if any. -/
structure EstimateEnv where
  execErr : Option ErrId
  row : Option (Int × Int)

/-- `utils.estimate_table_rows`. -/
def estimate_table_rows (env : EstimateEnv) : Except PgError Int :=
  match env.execErr with
  | some e => .error (.fetch e)
  | none =>
    match env.row with
    | some r => .ok r.1
    | none => .ok 100000

/-- Counterexample to claim C4 as stated: when the catalog lookup yields
a row with a zero estimate, estimate_table_rows returns 0, not the
fallback constant 100000. -/
theorem estimate_table_rows_zero_counterexample :
    estimate_table_rows ⟨none, some (0, 4)⟩ = .ok 0 ∧ (0 : Int) ≠ 100000 :=
  ⟨rfl, by decide⟩

/-- Claim C4 amended: estimate_table_rows returns the fallback constant
100000 exactly when the catalog lookup yields no matching row — so it
never raises for a table merely absent from catalog statistics — and when
a row is present it returns that row's reltuples value as-is (a zero
estimate therefore yields 0, not the fallback); it raises only on genuine
execution failure, and its result is nonnegative whenever the catalog
value is. -/
theorem estimate_table_rows_amended (env : EstimateEnv) :
    (env.execErr = none → env.row = none → estimate_table_rows env = .ok 100000) ∧
    (∀ r, env.execErr = none → env.row = some r → estimate_table_rows env = .ok r.1) ∧
    (∀ e, env.execErr = some e → estimate_table_rows env = .error (.fetch e)) ∧
    (env.execErr = none → (∀ r ∈ env.row, 0 ≤ r.1) →
      ∃ n : Int, estimate_table_rows env = .ok n ∧ 0 ≤ n) := by
  obtain ⟨ee, row⟩ := env
  refine ⟨?_, ?_, ?_, ?_⟩
  · intro he hr
    simp only at he hr
    subst he
    subst hr
    rfl
  · intro r he hr
    simp only at he hr
    subst he
    subst hr
    rfl
  · intro e he
    simp only at he
    subst he
    rfl
  · intro he hr
    simp only at he
    subst he
    cases row with
    | none => exact ⟨100000, rfl, by decide⟩
    | some r =>
      exact ⟨r.1, rfl, hr r (by simp)⟩

/-- Witness for the amended C4: a missing catalog row yields the 100000
fallback rather than an error. -/
theorem estimate_table_rows_amended_witness :
    estimate_table_rows ⟨none, none⟩ = .ok 100000 :=
  (estimate_table_rows_amended ⟨none, none⟩).1 rfl rfl

/-! ## Chunked reading: `utils.fetch_in_chunks`

The function first calls `estimate_table_rows` (one catalog query on the
same cursor), then executes the main query, then loops
`batch = cur.fetchmany(batch_size); if not batch: break;
results.extend(batch)` and returns `results`.  The row stream the server
delivers is modelled as a list; `fetchmany(n)` yields the next
`min(n, remaining)` rows.  The cursor's result-column metadata
(`cur.description`) is part of the environment but the source never reads
it.  The estimate feeds only the progress-bar total.  Fuel
`len(rows) + 1` bounds the loop; it suffices for every batch size, since
a pull of zero rows ends the loop at once. -/

/-- External behaviour seen by `fetch_in_chunks`: the estimate query's
outcome, the main query's outcome, the cursor's result-column metadata,
and the rows the server delivers in order. -/
structure FetchEnv (α : Type) where
  estExecErr : Option ErrId
  estRow : Option (Int × Int)
  queryExecErr : Option ErrId
  description : List String
  allRows : List α

/-- The fetchmany loop: pull up to `bs` rows, stop on an empty pull
(`if not batch: break`), otherwise accumulate the batch and continue on
the rest. -/
def fetchLoop (bs : Nat) : Nat → List α → List (List α)
  | 0, _ => []
  | fuel + 1, remaining =>
    match remaining.take bs with
    | [] => []
    | b :: brest => (b :: brest) :: fetchLoop bs fuel (remaining.drop bs)

/-- `utils.fetch_in_chunks`: estimate (any failure re-raised as a fetch
error), execute the query (failure raised as a fetch error), then the
fetchmany loop; the batches are extended into one flat result list.  The
estimate value is bound but used only for the progress-bar total, and
`description` is never consulted. -/
def fetch_in_chunks (env : FetchEnv α) (bs : Nat) : Except PgError (List α) :=
  match estimate_table_rows ⟨env.estExecErr, env.estRow⟩ with
  | .error pe => .error pe
  | .ok _ =>
    match env.queryExecErr with
    | some e => .error (.fetch e)
    | none => .ok (fetchLoop bs (env.allRows.length + 1) env.allRows).flatten

lemma fetchLoop_flatten (bs : Nat) (hbs : 1 ≤ bs) :
    ∀ fuel (l : List α), l.length < fuel → (fetchLoop bs fuel l).flatten = l := by
  intro fuel
  induction fuel with
  | zero => intro l h; omega
  | succ f ih =>
    intro l h
    cases hl : l.take bs with
    | nil =>
      have hnil : l = [] := by
        rcases List.take_eq_nil_iff.mp hl with h0 | h0
        · omega
        · exact h0
      subst hnil
      simp [fetchLoop]
    | cons x xs =>
      have hlne : l ≠ [] := by
        intro h0
        subst h0
        simp at hl
      simp only [fetchLoop, hl, List.flatten_cons]
      rw [ih (l.drop bs) (by
        rw [List.length_drop]
        have hpos : 0 < l.length := List.length_pos.mpr hlne
        omega), ← hl]
      exact List.take_append_drop bs l

lemma fetchLoop_batches (bs : Nat) :
    ∀ fuel (l : List α), ∀ b ∈ fetchLoop bs fuel l, b ≠ [] ∧ b.length ≤ bs := by
  intro fuel
  induction fuel with
  | zero => intro l b hb; cases hb
  | succ f ih =>
    intro l b hb
    cases hl : l.take bs with
    | nil =>
      simp only [fetchLoop, hl] at hb
      cases hb
    | cons x xs =>
      simp only [fetchLoop, hl] at hb
      rcases List.mem_cons.mp hb with hh | ht
      · subst hh
        refine ⟨by simp, ?_⟩
        rw [← hl, List.length_take]
        omega
      · exact ih (l.drop bs) b ht

/-- Claim C7: with batch_size ≥ 1 and no execution failure,
fetch_in_chunks returns exactly the server-delivered rows in delivery
order — exhaustive, every pulled batch nonempty and of size at most
batch_size — and the row estimate has no effect on the rows returned (the
statement holds for every `estRow`, and the two conjuncts below also make
the empty-result case explicit: zero delivered rows give an empty
result). -/
theorem fetch_in_chunks_exhaustive (α : Type) (env : FetchEnv α) (bs : Nat)
    (hbs : 1 ≤ bs) (hee : env.estExecErr = none) (hqe : env.queryExecErr = none) :
    fetch_in_chunks env bs = .ok env.allRows ∧
    (∀ b ∈ fetchLoop bs (env.allRows.length + 1) env.allRows, b ≠ [] ∧ b.length ≤ bs) ∧
    (env.allRows = [] → fetch_in_chunks env bs = .ok []) := by
  obtain ⟨ee, er, qe, d, rows⟩ := env
  simp only at hee hqe
  subst hee
  subst hqe
  have hmain : fetch_in_chunks (⟨none, er, none, d, rows⟩ : FetchEnv α) bs = .ok rows := by
    cases er with
    | none =>
      simp only [fetch_in_chunks, estimate_table_rows]
      rw [fetchLoop_flatten bs hbs (rows.length + 1) rows (by omega)]
    | some r =>
      simp only [fetch_in_chunks, estimate_table_rows]
      rw [fetchLoop_flatten bs hbs (rows.length + 1) rows (by omega)]
  refine ⟨hmain, fetchLoop_batches bs (rows.length + 1) rows, ?_⟩
  intro hrows
  simp only at hrows
  subst hrows
  exact hmain

/-- Witness for C7: three concrete rows with batch size 2 come back
exactly and in order, and a zero-row result set yields the empty list. -/
theorem fetch_in_chunks_exhaustive_witness :
    fetch_in_chunks (⟨none, some (9, 1), none, ["a"], [10, 20, 30]⟩ : FetchEnv Nat) 2
      = .ok [10, 20, 30] ∧
    fetch_in_chunks (⟨none, none, none, ["a"], ([] : List Nat)⟩ : FetchEnv Nat) 2
      = .ok [] :=
  ⟨(fetch_in_chunks_exhaustive Nat ⟨none, some (9, 1), none, ["a"], [10, 20, 30]⟩ 2
      (by decide) rfl rfl).1,
   (fetch_in_chunks_exhaustive Nat ⟨none, none, none, ["a"], []⟩ 2
      (by decide) rfl rfl).2.2 rfl⟩

/-- Counterexample to claim C5 as stated: two environments that differ
only in the cursor's result-column names produce identical
fetch_in_chunks results, so the returned value cannot contain the
column-name list — the function does not capture or return column
names. -/
theorem fetch_in_chunks_no_columns_counterexample :
    fetch_in_chunks (⟨none, none, none, ["a"], [1, 2, 3]⟩ : FetchEnv Nat) 2
      = fetch_in_chunks (⟨none, none, none, ["b"], [1, 2, 3]⟩ : FetchEnv Nat) 2 ∧
    (["a"] : List String) ≠ ["b"] :=
  ⟨rfl, by decide⟩

/-- Claim C5 amended: fetch_in_chunks returns only the accumulated row
sequence — on success the flat list of delivered rows — and no
column-name list: its result is independent of the cursor's result-column
metadata, which the source never reads. -/
theorem fetch_in_chunks_rows_only (α : Type) (ee : Option ErrId)
    (er : Option (Int × Int)) (qe : Option ErrId) (d1 d2 : List String)
    (rows : List α) (bs : Nat) :
    fetch_in_chunks (⟨ee, er, qe, d1, rows⟩ : FetchEnv α) bs
      = fetch_in_chunks (⟨ee, er, qe, d2, rows⟩ : FetchEnv α) bs ∧
    (1 ≤ bs → ee = none → qe = none →
      fetch_in_chunks (⟨ee, er, qe, d1, rows⟩ : FetchEnv α) bs = .ok rows) := by
  refine ⟨rfl, ?_⟩
  intro hbs hee hqe
  exact (fetch_in_chunks_exhaustive α ⟨ee, er, qe, d1, rows⟩ bs hbs hee hqe).1

/-- Witness for the amended C5: at a concrete environment the result is
exactly the row list, with no column names in it. -/
theorem fetch_in_chunks_rows_only_witness :
    fetch_in_chunks (⟨none, none, none, ["x"], [5, 6]⟩ : FetchEnv Nat) 10
      = .ok [5, 6] :=
  (fetch_in_chunks_rows_only Nat none none none ["x"] ["y"] [5, 6] 10).2
    (by decide) rfl rfl

/-! ## Single-row fetch: `utils.fetch_one`

`fetch_one` executes the query, calls `cur.fetchone()` — which returns
`None` on an empty result set — and returns that value unchanged; any
failure inside the `try` is re-raised as a fetch error. -/

/-- External behaviour seen by `fetch_one`: whether execute raises,
whether the fetch itself raises, and the row the cursor returns
(`none` = empty result set). -/
structure FetchOneEnv (α : Type) where
  execErr : Option ErrId
  fetchErr : Option ErrId
  row : Option α

/-- `utils.fetch_one`. -/
def fetch_one (env : FetchOneEnv α) : Except PgError (Option α) :=
  match env.execErr with
  | some e => .error (.fetch e)
  | none =>
    match env.fetchErr with
    | some e => .error (.fetch e)
    | none => .ok env.row

/-- Claim C10: when execution and fetch succeed, fetch_one returns the
cursor's row as an optional value — in particular `none` (Python `None`)
for an empty result set, with no error raised — and it returns an error
only when executing the query or fetching the row itself failed. -/
theorem fetch_one_option_result (α : Type) (env : FetchOneEnv α) :
    (env.execErr = none → env.fetchErr = none → fetch_one env = .ok env.row) ∧
    (env.execErr = none → env.fetchErr = none → env.row = none →
      fetch_one env = .ok none) ∧
    (∀ pe, fetch_one env = .error pe → env.execErr ≠ none ∨ env.fetchErr ≠ none) := by
  obtain ⟨ee, fe, row⟩ := env
  refine ⟨?_, ?_, ?_⟩
  · intro he hf
    simp only at he hf
    subst he
    subst hf
    rfl
  · intro he hf hr
    simp only at he hf hr
    subst he
    subst hf
    subst hr
    rfl
  · intro pe hpe
    cases ee with
    | some e => exact Or.inl (by simp)
    | none =>
      cases fe with
      | some e => exact Or.inr (by simp)
      | none =>
        simp only [fetch_one] at hpe
        cases hpe

/-- Witness for C10: an empty result set gives `.ok none`, not an
error. -/
theorem fetch_one_option_result_witness :
    fetch_one (⟨none, none, none⟩ : FetchOneEnv Nat) = .ok none :=
  (fetch_one_option_result Nat ⟨none, none, none⟩).2.1 rfl rfl rfl

end NovaPg
